import Mathlib

/-!
Verification development for the rn-nevis bridging layer.

The definitions below are a shallow embedding of the repository's
TypeScript sources: builder state becomes a record, mutation becomes
functional update, promise resolution becomes an explicit outcome value,
and the side effects of `execute` become an explicit list of atomic
actions interpreted over a bridge state.  Components whose code is not in
the repository snapshot (the operation cache, the native event listener,
some leaf message classes) are modelled from the specification and marked
as such in their doc comments.
-/

/-- Opaque token standing for a caller-supplied `AccountSelector` handler. -/
structure AccountSelector where
  token : Nat
deriving DecidableEq, Repr

/-- Opaque token standing for a caller-supplied `AuthenticatorSelector` handler. -/
structure AuthenticatorSelector where
  token : Nat
deriving DecidableEq, Repr

/-- Opaque token standing for a caller-supplied `PinUserVerifier` handler. -/
structure PinUserVerifier where
  token : Nat
deriving DecidableEq, Repr

/-- Opaque token standing for a caller-supplied `BiometricUserVerifier` handler. -/
structure BiometricUserVerifier where
  token : Nat
deriving DecidableEq, Repr

/-- Opaque token standing for a caller-supplied `DevicePasscodeUserVerifier` handler. -/
structure DevicePasscodeUserVerifier where
  token : Nat
deriving DecidableEq, Repr

/-- Opaque token standing for a caller-supplied `FingerprintUserVerifier` handler. -/
structure FingerprintUserVerifier where
  token : Nat
deriving DecidableEq, Repr

/-- Opaque token standing for the caller's `onSuccess` callback. -/
structure SuccessCallback where
  token : Nat
deriving DecidableEq, Repr

/-- Opaque token standing for the caller's `onError` callback. -/
structure ErrorCallback where
  token : Nat
deriving DecidableEq, Repr

/-- Opaque token standing for the HTTP request headers configured through
`HttpOperationImpl` (field `httpRequestHeaders`). -/
structure RequestHeaders where
  token : Nat
deriving DecidableEq, Repr

/-- State of `OutOfBandAuthenticationImpl`
(`lib/typescript/.../OutOfBandAuthenticationImpl`, fields at lines 263-271):
the operation identifier set by the constructor plus the eight optional
private fields filled in by the fluent setters, and the inherited
`httpRequestHeaders` from `HttpOperationImpl`.  `undefined` becomes `none`. -/
structure OutOfBandAuthenticationImpl where
  operationId : String
  _accountSelector : Option AccountSelector
  _authenticatorSelector : Option AuthenticatorSelector
  _pinUserVerifier : Option PinUserVerifier
  _biometricUserVerifier : Option BiometricUserVerifier
  _devicePasscodeUserVerifier : Option DevicePasscodeUserVerifier
  _fingerprintUserVerifier : Option FingerprintUserVerifier
  _onSuccess : Option SuccessCallback
  _onError : Option ErrorCallback
  httpRequestHeaders : Option RequestHeaders
deriving DecidableEq, Repr

/-- The constructor `constructor(operationId: string)`: stores the identifier,
leaves every optional field unset. -/
def OutOfBandAuthenticationImpl.new (operationId : String) : OutOfBandAuthenticationImpl :=
  { operationId := operationId
    _accountSelector := none
    _authenticatorSelector := none
    _pinUserVerifier := none
    _biometricUserVerifier := none
    _devicePasscodeUserVerifier := none
    _fingerprintUserVerifier := none
    _onSuccess := none
    _onError := none
    httpRequestHeaders := none }

/-- Setter `accountSelector`: assigns `this._accountSelector` and returns `this`. -/
def OutOfBandAuthenticationImpl.accountSelector (self : OutOfBandAuthenticationImpl)
    (v : AccountSelector) : OutOfBandAuthenticationImpl :=
  { self with _accountSelector := some v }

/-- Setter `authenticatorSelector`: assigns `this._authenticatorSelector` and returns `this`. -/
def OutOfBandAuthenticationImpl.authenticatorSelector (self : OutOfBandAuthenticationImpl)
    (v : AuthenticatorSelector) : OutOfBandAuthenticationImpl :=
  { self with _authenticatorSelector := some v }

/-- Setter `pinUserVerifier`: assigns `this._pinUserVerifier` and returns `this`. -/
def OutOfBandAuthenticationImpl.pinUserVerifier (self : OutOfBandAuthenticationImpl)
    (v : PinUserVerifier) : OutOfBandAuthenticationImpl :=
  { self with _pinUserVerifier := some v }

/-- Setter `biometricUserVerifier`: assigns `this._biometricUserVerifier` and returns `this`. -/
def OutOfBandAuthenticationImpl.biometricUserVerifier (self : OutOfBandAuthenticationImpl)
    (v : BiometricUserVerifier) : OutOfBandAuthenticationImpl :=
  { self with _biometricUserVerifier := some v }

/-- Setter `devicePasscodeUserVerifier`: assigns `this._devicePasscodeUserVerifier`
and returns `this`. -/
def OutOfBandAuthenticationImpl.devicePasscodeUserVerifier (self : OutOfBandAuthenticationImpl)
    (v : DevicePasscodeUserVerifier) : OutOfBandAuthenticationImpl :=
  { self with _devicePasscodeUserVerifier := some v }

/-- Setter `fingerprintUserVerifier`: assigns `this._fingerprintUserVerifier`
and returns `this`. -/
def OutOfBandAuthenticationImpl.fingerprintUserVerifier (self : OutOfBandAuthenticationImpl)
    (v : FingerprintUserVerifier) : OutOfBandAuthenticationImpl :=
  { self with _fingerprintUserVerifier := some v }

/-- Setter `onSuccess`: assigns `this._onSuccess` and returns `this`. -/
def OutOfBandAuthenticationImpl.onSuccess (self : OutOfBandAuthenticationImpl)
    (v : SuccessCallback) : OutOfBandAuthenticationImpl :=
  { self with _onSuccess := some v }

/-- Setter `onError`: assigns `this._onError` and returns `this`. -/
def OutOfBandAuthenticationImpl.onError (self : OutOfBandAuthenticationImpl)
    (v : ErrorCallback) : OutOfBandAuthenticationImpl :=
  { self with _onError := some v }

/-- The cached operation built at the start of `execute` (line 325):
`new UserInteractionPlatformOperationImpl(operationId, authenticatorSelector,
accountSelector, biometricUserVerifier, devicePasscodeUserVerifier,
fingerprintUserVerifier, pinUserVerifier)`, fields in the constructor's order. -/
structure UserInteractionPlatformOperationImpl where
  operationId : String
  authenticatorSelector : Option AuthenticatorSelector
  accountSelector : Option AccountSelector
  biometricUserVerifier : Option BiometricUserVerifier
  devicePasscodeUserVerifier : Option DevicePasscodeUserVerifier
  fingerprintUserVerifier : Option FingerprintUserVerifier
  pinUserVerifier : Option PinUserVerifier
deriving DecidableEq, Repr

/-- The operation value constructed in `execute` (lines 325-333). -/
def UserInteractionPlatformOperationImpl.ofAuth (impl : OutOfBandAuthenticationImpl) :
    UserInteractionPlatformOperationImpl :=
  { operationId := impl.operationId
    authenticatorSelector := impl._authenticatorSelector
    accountSelector := impl._accountSelector
    biometricUserVerifier := impl._biometricUserVerifier
    devicePasscodeUserVerifier := impl._devicePasscodeUserVerifier
    fingerprintUserVerifier := impl._fingerprintUserVerifier
    pinUserVerifier := impl._pinUserVerifier }

/-- The outgoing message built in `execute` (lines 339-351).  Field names
follow the positional arguments of the `OutOfBandAuthenticationMessage`
constructor call: identifier, one presence flag per optional handler (the
fourth positional argument is the literal `false`), the callback presence
flags, and the request headers. -/
structure OutOfBandAuthenticationMessage where
  operationId : String
  accountSelectorProvided : Bool
  authenticatorSelectorProvided : Bool
  pinEnrollerProvided : Bool
  pinUserVerifierProvided : Bool
  biometricUserVerifierProvided : Bool
  devicePasscodeUserVerifierProvided : Bool
  fingerprintUserVerifierProvided : Bool
  onSuccessProvided : Bool
  onErrorProvided : Bool
  requestHeaders : Option RequestHeaders
deriving DecidableEq, Repr

/-- The encoding performed by `execute` (lines 339-351): each presence flag is
`field !== undefined`; the fourth positional argument is the literal `false`. -/
def OutOfBandAuthenticationImpl.message (impl : OutOfBandAuthenticationImpl) :
    OutOfBandAuthenticationMessage :=
  { operationId := impl.operationId
    accountSelectorProvided := impl._accountSelector.isSome
    authenticatorSelectorProvided := impl._authenticatorSelector.isSome
    pinEnrollerProvided := false
    pinUserVerifierProvided := impl._pinUserVerifier.isSome
    biometricUserVerifierProvided := impl._biometricUserVerifier.isSome
    devicePasscodeUserVerifierProvided := impl._devicePasscodeUserVerifier.isSome
    fingerprintUserVerifierProvided := impl._fingerprintUserVerifier.isSome
    onSuccessProvided := impl._onSuccess.isSome
    onErrorProvided := impl._onError.isSome
    requestHeaders := impl.httpRequestHeaders }

/-- Modelled from the spec: the `PlatformOperationCache` class is not in the
repository snapshot; only its callers are.  Per the spec it is a single
process-wide mapping from operation identifier to cached operation with
unique keys, here an association list keyed by `operationId`. -/
def PlatformOperationCache : Type :=
  List (String × UserInteractionPlatformOperationImpl)

/-- Modelled from the spec: `put(operation)` inserts or replaces the entry
keyed by the operation's identifier; it always succeeds. -/
def PlatformOperationCache.put (c : PlatformOperationCache)
    (op : UserInteractionPlatformOperationImpl) : PlatformOperationCache :=
  (op.operationId, op) :: c.filter (fun e => e.1 != op.operationId)

/-- Modelled from the spec: `get(identifier)` returns the cached operation for
that identifier, or an absent result if none exists. -/
def PlatformOperationCache.get (c : PlatformOperationCache) (id : String) :
    Option UserInteractionPlatformOperationImpl :=
  (c.find? (fun e => e.1 == id)).map (fun e => e.2)

/-- Modelled from the spec: `delete(identifier)` removes the entry if present
and is a no-op otherwise. -/
def PlatformOperationCache.delete (c : PlatformOperationCache) (id : String) :
    PlatformOperationCache :=
  c.filter (fun e => e.1 != id)

/-- Modelled from the spec: `NativeEventListener.stop()` is not in the
repository snapshot; per the spec it idempotently unsubscribes — the active
flag becomes false unconditionally. -/
def NativeEventListener.stop (_active : Bool) : Bool :=
  false

/-- The shared mutable state of the bridge: the process-wide operation cache
and the listener subscription flag. -/
structure BridgeState where
  cache : PlatformOperationCache
  listenerActive : Bool

/-- How the promise returned by the native `oobAuthenticate` call settles:
resolution (the `.then` branch) or rejection (the `.catch` branch). -/
inductive NativeOutcome where
  | success
  | failure
deriving DecidableEq, Repr

/-- One atomic observable step of `execute`: a cache insertion, the native
call, a listener stop, a cache deletion, or a top-level callback invocation. -/
inductive BridgeAction where
  | putEntry (op : UserInteractionPlatformOperationImpl)
  | nativeCall (message : OutOfBandAuthenticationMessage)
  | stopListener
  | deleteEntry (id : String)
  | invokeOnSuccess (id : String)
  | invokeOnError (id : String)
deriving DecidableEq, Repr

/-- The `finish` closure of `execute` (lines 353-356): stop the native event
listener, then delete the operation's cache entry — in that order. -/
def finishActions (impl : OutOfBandAuthenticationImpl) : List BridgeAction :=
  [BridgeAction.stopListener, BridgeAction.deleteEntry impl.operationId]

/-- The sequence of observable steps of one run of `execute` (lines 324-369):
build and insert the cached operation, send the encoded message to the native
boundary, and on promise settlement run `finish()` and then invoke the
corresponding configured callback (the source uses optional chaining, so an
unconfigured callback is simply not invoked). -/
def executeTrace (impl : OutOfBandAuthenticationImpl) (outcome : NativeOutcome) :
    List BridgeAction :=
  [BridgeAction.putEntry (UserInteractionPlatformOperationImpl.ofAuth impl),
   BridgeAction.nativeCall impl.message] ++
  (match outcome with
   | NativeOutcome.success =>
       finishActions impl ++
       (match impl._onSuccess with
        | some _ => [BridgeAction.invokeOnSuccess impl.operationId]
        | none => [])
   | NativeOutcome.failure =>
       finishActions impl ++
       (match impl._onError with
        | some _ => [BridgeAction.invokeOnError impl.operationId]
        | none => []))

/-- Effect of one atomic step on the bridge state.  Callback invocations and
the native call do not change the cache or the listener flag. -/
def applyAction (s : BridgeState) : BridgeAction → BridgeState
  | BridgeAction.putEntry op => { s with cache := PlatformOperationCache.put s.cache op }
  | BridgeAction.nativeCall _ => s
  | BridgeAction.stopListener => { s with listenerActive := NativeEventListener.stop s.listenerActive }
  | BridgeAction.deleteEntry id => { s with cache := PlatformOperationCache.delete s.cache id }
  | BridgeAction.invokeOnSuccess _ => s
  | BridgeAction.invokeOnError _ => s

/-- Run a list of atomic steps from a bridge state. -/
def runTrace (s : BridgeState) (tr : List BridgeAction) : BridgeState :=
  tr.foldl applyAction s

/-- Index of the first action satisfying a predicate, if any. -/
def firstIdxAux (p : BridgeAction → Bool) : List BridgeAction → Option Nat
  | [] => none
  | a :: tl => if p a then some 0 else (firstIdxAux p tl).map (fun n => n + 1)

/-- Both actions occur in the trace and the first occurrence of `p` strictly
precedes the first occurrence of `q`. -/
def beforeB (tr : List BridgeAction) (p q : BridgeAction → Bool) : Bool :=
  match firstIdxAux p tr, firstIdxAux q tr with
  | some i, some j => decide (i < j)
  | _, _ => false

/-- Recognises the deletion of a given identifier's cache entry. -/
def isDelete (id : String) : BridgeAction → Bool
  | BridgeAction.deleteEntry j => j == id
  | _ => false

/-- Recognises the invocation of the success callback for a given identifier. -/
def isInvokeSuccess (id : String) : BridgeAction → Bool
  | BridgeAction.invokeOnSuccess j => j == id
  | _ => false

/-- Recognises the invocation of the error callback for a given identifier. -/
def isInvokeError (id : String) : BridgeAction → Bool
  | BridgeAction.invokeOnError j => j == id
  | _ => false

/-- Recognises any terminal callback invocation. -/
def isTerminalCallback : BridgeAction → Bool
  | BridgeAction.invokeOnSuccess _ => true
  | BridgeAction.invokeOnError _ => true
  | _ => false

/-- Recognises the insertion of an operation keyed by a given identifier. -/
def isPutFor (id : String) : BridgeAction → Bool
  | BridgeAction.putEntry op => op.operationId == id
  | _ => false

/-- Recognises the native `oobAuthenticate` call. -/
def isNativeCall : BridgeAction → Bool
  | BridgeAction.nativeCall _ => true
  | _ => false

/-- The native error object consumed by the error converters: a type
discriminator string, a description, an optional cause and an optional
message (the base `ErrorConverter` exposes it as `this.error`). -/
structure NativeError where
  type : String
  description : String
  cause : Option String
  message : Option String
deriving DecidableEq, Repr

/-- The fingerprint user-verification domain's error
(`FingerprintUserVerificationError`): description, optional cause, and the
optional message shown on the fingerprint dialog.  It is the domain's sole —
hence catch-all — variant. -/
structure FingerprintUserVerificationError where
  description : String
  cause : Option String
  message : Option String
deriving DecidableEq, Repr

/-- `FingerprintUserVerificationErrorConverter.convert`
(`src/error/userVerification/FingerprintUserVerificationErrorConverter.ts`,
lines 9-15): unconditionally builds a `FingerprintUserVerificationError`
from `this.error.description`, `this.error.cause`, `this.error.message`. -/
def FingerprintUserVerificationErrorConverter.convert (e : NativeError) :
    FingerprintUserVerificationError :=
  { description := e.description
    cause := e.cause
    message := e.message }

/-- The fingerprint converter consults no discriminator mapping table
(its `convert` never reads `this.error.type`), so the set of known
discriminators for this domain is empty. -/
def fingerprintKnownDiscriminators : List String :=
  []

/-- The out-of-band operation error domain, restricted to the variants whose
declarations are in the repository snapshot
(`OutOfBandOperationTokenAlreadyRedeemed`, `OutOfBandOperationTokenExpired`,
`OutOfBandOperationUnknownError`); each carries a description and an optional
cause. -/
inductive OutOfBandOperationError where
  | tokenAlreadyRedeemed (description : String) (cause : Option String)
  | tokenExpired (description : String) (cause : Option String)
  | unknown (description : String) (cause : Option String)
deriving DecidableEq, Repr

/-- Discriminators mapped by the out-of-band operation converter, per the
variant declarations present in the snapshot and the specification's
dispatch example for `tokenExpired`. -/
def outOfBandKnownDiscriminators : List String :=
  ["tokenAlreadyRedeemed", "tokenExpired"]

/-- Modelled from the spec: the `OutOfBandOperationErrorConverter` class is
not in the repository snapshot.  Per the spec it is a direct mapping table
from discriminator string to variant constructor for known cases, and any
unrecognized discriminator maps to the domain's Unknown variant, preserving
description and cause verbatim. -/
def OutOfBandOperationErrorConverter.convert (e : NativeError) :
    OutOfBandOperationError :=
  if e.type == "tokenAlreadyRedeemed" then
    OutOfBandOperationError.tokenAlreadyRedeemed e.description e.cause
  else if e.type == "tokenExpired" then
    OutOfBandOperationError.tokenExpired e.description e.cause
  else
    OutOfBandOperationError.unknown e.description e.cause

/-- `AuthCloudApiUserAlreadyRegisteredInAnotherServerError`
(`src/error/authCloudApi/AuthCloudApiUserAlreadyRegisteredInAnotherServerError.ts`):
a concrete error class holding a description and an optional cause. -/
structure AuthCloudApiUserAlreadyRegisteredInAnotherServerError where
  description : String
  cause : Option String
deriving DecidableEq, Repr

/-- Its constructor (lines 30-34): stores description and cause. -/
def AuthCloudApiUserAlreadyRegisteredInAnotherServerError.new (description : String)
    (cause : Option String) : AuthCloudApiUserAlreadyRegisteredInAnotherServerError :=
  { description := description, cause := cause }

/-- Modelled from the spec: the `DeviceInformation` class and its `fromJson`
are not in the repository snapshot; only its presence or absence matters to
the claims here, so it is an opaque payload. -/
structure DeviceInformationJson where
  payload : Nat
deriving DecidableEq, Repr

/-- Modelled from the spec: the decoded `DeviceInformation` value, an opaque
wrapper around the raw payload. -/
structure DeviceInformation where
  payload : Nat
deriving DecidableEq, Repr

/-- Modelled from the spec: `DeviceInformation.fromJson` decodes the raw
payload; its internals are irrelevant to the claims here. -/
def DeviceInformation.fromJson (j : DeviceInformationJson) : DeviceInformation :=
  { payload := j.payload }

/-- The raw json consumed by `LocalDeviceInformationMessage.fromJson`: an
`operationId` and an optional `deviceInformation` field (`undefined` becomes
`none`). -/
structure LocalDeviceInformationJson where
  operationId : String
  deviceInformation : Option DeviceInformationJson
deriving DecidableEq, Repr

/-- `LocalDeviceInformationMessage`
(`src/error/userVerification/FingerprintUserVerificationErrorConverter.ts`
snapshot, second document, lines 27-48): the identifier of the operation and
the optional device information. -/
structure LocalDeviceInformationMessage where
  operationId : String
  deviceInformation : Option DeviceInformation
deriving DecidableEq, Repr

/-- `LocalDeviceInformationMessage.fromJson` (lines 56-62): reads
`json.operationId`, and computes `data && DeviceInformation.fromJson(data)` —
an absent `deviceInformation` field stays absent, a present one is decoded. -/
def LocalDeviceInformationMessage.fromJson (json : LocalDeviceInformationJson) :
    LocalDeviceInformationMessage :=
  { operationId := json.operationId
    deviceInformation := json.deviceInformation.map DeviceInformation.fromJson }

/-- The platform the bridge runs on, as distinguished by `Platform.select` in
`Aaid.rawValue`: the two named branches and the default one. -/
inductive RnPlatform where
  | ios
  | android
  | other
deriving DecidableEq, Repr

/-- `Aaid` (`src/unnamed/part_001`, lines 18-35): a name and an ordinal. -/
structure Aaid where
  name : String
  ordinal : Nat
deriving DecidableEq, Repr

/-- `Aaid.aaidAndroid` (line 29). -/
def Aaid.aaidAndroid : List String :=
  ["F1D0#0001", "F1D0#0002", "F1D0#0003", "F1D0#0004"]

/-- `Aaid.aaidiOS` (line 30). -/
def Aaid.aaidiOS : List String :=
  ["F1D0#1001", "F1D0#1002", "F1D0#1003", "F1D0#1004"]

/-- `Aaid.PIN` (lines 40-42). -/
def Aaid.PIN : Aaid :=
  { name := "PIN", ordinal := 0 }

/-- `Aaid.FINGERPRINT` (lines 51-53). -/
def Aaid.FINGERPRINT : Aaid :=
  { name := "FINGERPRINT", ordinal := 1 }

/-- `Aaid.BIOMETRIC` (lines 63-65). -/
def Aaid.BIOMETRIC : Aaid :=
  { name := "BIOMETRIC", ordinal := 2 }

/-- `Aaid.DEVICE_PASSCODE` (lines 70-72). -/
def Aaid.DEVICE_PASSCODE : Aaid :=
  { name := "DEVICE_PASSCODE", ordinal := 3 }

/-- `Aaid.rawValue` (lines 86-98): selects by platform, indexing the platform
array by `this.ordinal` (the source asserts the lookup non-null with `!`;
here an out-of-range ordinal would surface the default `""`), and returns
`""` on any other platform. -/
def Aaid.rawValue (a : Aaid) (p : RnPlatform) : String :=
  match p with
  | RnPlatform.ios => (Aaid.aaidiOS.get? a.ordinal).getD ""
  | RnPlatform.android => (Aaid.aaidAndroid.get? a.ordinal).getD ""
  | RnPlatform.other => ""

/-- Recognises a listener-stop step. -/
def isStopListener : BridgeAction → Bool
  | BridgeAction.stopListener => true
  | _ => false

theorem find_none_of_filter_ne (c : List (String × UserInteractionPlatformOperationImpl))
    (id : String) :
    (c.filter (fun e => e.1 != id)).find? (fun e => e.1 == id) = none := by
  induction c with
  | nil => rfl
  | cons a tl ih =>
    by_cases h : a.1 = id
    · simp [List.filter_cons, h, ih]
    · simp [List.filter_cons, h, List.find?, ih]

theorem countP_key_filter_ne (c : List (String × UserInteractionPlatformOperationImpl))
    (id : String) :
    List.countP (fun e => e.1 == id) (c.filter (fun e => e.1 != id)) = 0 := by
  induction c with
  | nil => rfl
  | cons a tl ih =>
    by_cases h : a.1 = id
    · simp [List.filter_cons, h, ih]
    · simp [List.filter_cons, h, List.countP_cons, ih]

theorem PlatformOperationCache.get_put_self (c : PlatformOperationCache)
    (op : UserInteractionPlatformOperationImpl) :
    PlatformOperationCache.get (PlatformOperationCache.put c op) op.operationId = some op := by
  simp [PlatformOperationCache.get, PlatformOperationCache.put, List.find?]

theorem PlatformOperationCache.get_delete_self (c : PlatformOperationCache) (id : String) :
    PlatformOperationCache.get (PlatformOperationCache.delete c id) id = none := by
  simp [PlatformOperationCache.get, PlatformOperationCache.delete, find_none_of_filter_ne]

/-- C7: for every cache state and operation, `put` followed immediately by
`get` on the operation's identifier returns exactly the inserted operation;
`put` is total (a Lean function) and leaves exactly one entry for that
identifier, replacing any pre-existing one. -/
theorem c7_put_then_get (c : PlatformOperationCache)
    (op : UserInteractionPlatformOperationImpl) :
    PlatformOperationCache.get (PlatformOperationCache.put c op) op.operationId = some op ∧
    List.countP (fun e => e.1 == op.operationId) (PlatformOperationCache.put c op) = 1 := by
  refine ⟨PlatformOperationCache.get_put_self c op, ?_⟩
  simp [PlatformOperationCache.put, List.countP_cons, countP_key_filter_ne]

/-- C9: the four `Aaid` constants carry ordinals 0..3, both platform arrays
have length 4 (so `rawValue` never indexes out of bounds), and `rawValue`
returns the documented string per platform, with `""` on any other platform. -/
theorem c9_aaid_raw_value_safe :
    Aaid.aaidAndroid.length = 4 ∧ Aaid.aaidiOS.length = 4 ∧
    Aaid.PIN.ordinal = 0 ∧ Aaid.FINGERPRINT.ordinal = 1 ∧
    Aaid.BIOMETRIC.ordinal = 2 ∧ Aaid.DEVICE_PASSCODE.ordinal = 3 ∧
    Aaid.PIN.ordinal < Aaid.aaidAndroid.length ∧
    Aaid.FINGERPRINT.ordinal < Aaid.aaidAndroid.length ∧
    Aaid.BIOMETRIC.ordinal < Aaid.aaidAndroid.length ∧
    Aaid.DEVICE_PASSCODE.ordinal < Aaid.aaidAndroid.length ∧
    Aaid.PIN.ordinal < Aaid.aaidiOS.length ∧
    Aaid.FINGERPRINT.ordinal < Aaid.aaidiOS.length ∧
    Aaid.BIOMETRIC.ordinal < Aaid.aaidiOS.length ∧
    Aaid.DEVICE_PASSCODE.ordinal < Aaid.aaidiOS.length ∧
    Aaid.rawValue Aaid.PIN RnPlatform.android = "F1D0#0001" ∧
    Aaid.rawValue Aaid.FINGERPRINT RnPlatform.android = "F1D0#0002" ∧
    Aaid.rawValue Aaid.BIOMETRIC RnPlatform.android = "F1D0#0003" ∧
    Aaid.rawValue Aaid.DEVICE_PASSCODE RnPlatform.android = "F1D0#0004" ∧
    Aaid.rawValue Aaid.PIN RnPlatform.ios = "F1D0#1001" ∧
    Aaid.rawValue Aaid.FINGERPRINT RnPlatform.ios = "F1D0#1002" ∧
    Aaid.rawValue Aaid.BIOMETRIC RnPlatform.ios = "F1D0#1003" ∧
    Aaid.rawValue Aaid.DEVICE_PASSCODE RnPlatform.ios = "F1D0#1004" ∧
    Aaid.rawValue Aaid.PIN RnPlatform.other = "" ∧
    Aaid.rawValue Aaid.FINGERPRINT RnPlatform.other = "" ∧
    Aaid.rawValue Aaid.BIOMETRIC RnPlatform.other = "" ∧
    Aaid.rawValue Aaid.DEVICE_PASSCODE RnPlatform.other = "" := by
  decide

/-- C5: the fingerprint converter is total — a Lean function defined on every
native error — and the variant it returns carries the input's description and
cause; likewise the `AuthCloudApiUserAlreadyRegisteredInAnotherServerError`
constructor stores description and cause as given. -/
theorem c5_converter_total (e : NativeError) (d : String) (c : Option String) :
    (FingerprintUserVerificationErrorConverter.convert e).description = e.description ∧
    (FingerprintUserVerificationErrorConverter.convert e).cause = e.cause ∧
    (AuthCloudApiUserAlreadyRegisteredInAnotherServerError.new d c).description = d ∧
    (AuthCloudApiUserAlreadyRegisteredInAnotherServerError.new d c).cause = c :=
  ⟨rfl, rfl, rfl, rfl⟩

/-- C4: for every native error whose discriminator is not in the domain's
mapping table, the converter returns the domain's catch-all variant with
description and cause preserved: the fingerprint converter (whose table is
empty, its sole variant being the catch-all) preserves both fields, and the
out-of-band operation converter maps any unrecognized discriminator to
`OutOfBandOperationError.unknown` with both fields preserved. -/
theorem c4_unknown_discriminator (e : NativeError)
    (_hf : e.type ∉ fingerprintKnownDiscriminators)
    (ho : e.type ∉ outOfBandKnownDiscriminators) :
    ((FingerprintUserVerificationErrorConverter.convert e).description = e.description ∧
     (FingerprintUserVerificationErrorConverter.convert e).cause = e.cause) ∧
    OutOfBandOperationErrorConverter.convert e =
      OutOfBandOperationError.unknown e.description e.cause := by
  refine ⟨⟨rfl, rfl⟩, ?_⟩
  simp [outOfBandKnownDiscriminators] at ho
  obtain ⟨h1, h2⟩ := ho
  simp [OutOfBandOperationErrorConverter.convert, h1, h2]

/-- Witness for C4 at the concrete discriminator `"sessionExpired"`. -/
theorem c4_unknown_discriminator_witness :
    ((⟨"sessionExpired", "d", some "c", none⟩ : NativeError).type ∉
        fingerprintKnownDiscriminators) ∧
    ((⟨"sessionExpired", "d", some "c", none⟩ : NativeError).type ∉
        outOfBandKnownDiscriminators) ∧
    (((FingerprintUserVerificationErrorConverter.convert
          ⟨"sessionExpired", "d", some "c", none⟩).description =
        (⟨"sessionExpired", "d", some "c", none⟩ : NativeError).description ∧
      (FingerprintUserVerificationErrorConverter.convert
          ⟨"sessionExpired", "d", some "c", none⟩).cause =
        (⟨"sessionExpired", "d", some "c", none⟩ : NativeError).cause) ∧
     OutOfBandOperationErrorConverter.convert ⟨"sessionExpired", "d", some "c", none⟩ =
       OutOfBandOperationError.unknown
         (⟨"sessionExpired", "d", some "c", none⟩ : NativeError).description
         (⟨"sessionExpired", "d", some "c", none⟩ : NativeError).cause) :=
  ⟨by decide, by decide,
   c4_unknown_discriminator ⟨"sessionExpired", "d", some "c", none⟩ (by decide) (by decide)⟩

/-- C6: decoding a json whose optional `deviceInformation` field is absent
succeeds with an absent `deviceInformation` and the `operationId` carried
over verbatim. -/
theorem c6_missing_optional_field_absent (json : LocalDeviceInformationJson)
    (h : json.deviceInformation = none) :
    (LocalDeviceInformationMessage.fromJson json).deviceInformation = none ∧
    (LocalDeviceInformationMessage.fromJson json).operationId = json.operationId := by
  simp [LocalDeviceInformationMessage.fromJson, h]

/-- Witness for C6 at a concrete json without device information. -/
theorem c6_missing_optional_field_absent_witness :
    (⟨"op-1", none⟩ : LocalDeviceInformationJson).deviceInformation = none ∧
    ((LocalDeviceInformationMessage.fromJson ⟨"op-1", none⟩).deviceInformation = none ∧
     (LocalDeviceInformationMessage.fromJson ⟨"op-1", none⟩).operationId =
       (⟨"op-1", none⟩ : LocalDeviceInformationJson).operationId) :=
  ⟨rfl, c6_missing_optional_field_absent ⟨"op-1", none⟩ rfl⟩

/-- C3: each capability presence flag of the encoded authentication request
is true exactly when the corresponding optional handler/selector was
configured; in particular, a request built with only a PIN verifier has the
PIN-verifier flag true and every other capability flag false. -/
theorem c3_presence_flags :
    (∀ impl : OutOfBandAuthenticationImpl,
      impl.message.accountSelectorProvided = impl._accountSelector.isSome ∧
      impl.message.authenticatorSelectorProvided = impl._authenticatorSelector.isSome ∧
      impl.message.pinUserVerifierProvided = impl._pinUserVerifier.isSome ∧
      impl.message.biometricUserVerifierProvided = impl._biometricUserVerifier.isSome ∧
      impl.message.devicePasscodeUserVerifierProvided =
        impl._devicePasscodeUserVerifier.isSome ∧
      impl.message.fingerprintUserVerifierProvided = impl._fingerprintUserVerifier.isSome) ∧
    (∀ (id : String) (p : PinUserVerifier),
      ((OutOfBandAuthenticationImpl.new id).pinUserVerifier p).message.pinUserVerifierProvided
        = true ∧
      ((OutOfBandAuthenticationImpl.new id).pinUserVerifier p).message.accountSelectorProvided
        = false ∧
      ((OutOfBandAuthenticationImpl.new
          id).pinUserVerifier p).message.authenticatorSelectorProvided = false ∧
      ((OutOfBandAuthenticationImpl.new
          id).pinUserVerifier p).message.biometricUserVerifierProvided = false ∧
      ((OutOfBandAuthenticationImpl.new
          id).pinUserVerifier p).message.devicePasscodeUserVerifierProvided = false ∧
      ((OutOfBandAuthenticationImpl.new
          id).pinUserVerifier p).message.fingerprintUserVerifierProvided = false) :=
  ⟨fun _ => ⟨rfl, rfl, rfl, rfl, rfl, rfl⟩, fun _ _ => ⟨rfl, rfl, rfl, rfl, rfl, rfl⟩⟩

/-- C10: each configuration setter assigns only its own private field, leaves
`operationId`, the request headers and every other configured field
unchanged, and the returned object is the receiver with exactly that single
field updated. -/
theorem c10_setters_frame :
    (∀ (impl : OutOfBandAuthenticationImpl) (v : AccountSelector),
      (impl.accountSelector v)._accountSelector = some v ∧
      (impl.accountSelector v).operationId = impl.operationId ∧
      (impl.accountSelector v)._authenticatorSelector = impl._authenticatorSelector ∧
      (impl.accountSelector v)._pinUserVerifier = impl._pinUserVerifier ∧
      (impl.accountSelector v)._biometricUserVerifier = impl._biometricUserVerifier ∧
      (impl.accountSelector v)._devicePasscodeUserVerifier =
        impl._devicePasscodeUserVerifier ∧
      (impl.accountSelector v)._fingerprintUserVerifier = impl._fingerprintUserVerifier ∧
      (impl.accountSelector v)._onSuccess = impl._onSuccess ∧
      (impl.accountSelector v)._onError = impl._onError ∧
      (impl.accountSelector v).httpRequestHeaders = impl.httpRequestHeaders) ∧
    (∀ (impl : OutOfBandAuthenticationImpl) (v : AuthenticatorSelector),
      (impl.authenticatorSelector v)._authenticatorSelector = some v ∧
      (impl.authenticatorSelector v).operationId = impl.operationId ∧
      (impl.authenticatorSelector v)._accountSelector = impl._accountSelector ∧
      (impl.authenticatorSelector v)._pinUserVerifier = impl._pinUserVerifier ∧
      (impl.authenticatorSelector v)._biometricUserVerifier = impl._biometricUserVerifier ∧
      (impl.authenticatorSelector v)._devicePasscodeUserVerifier =
        impl._devicePasscodeUserVerifier ∧
      (impl.authenticatorSelector v)._fingerprintUserVerifier =
        impl._fingerprintUserVerifier ∧
      (impl.authenticatorSelector v)._onSuccess = impl._onSuccess ∧
      (impl.authenticatorSelector v)._onError = impl._onError ∧
      (impl.authenticatorSelector v).httpRequestHeaders = impl.httpRequestHeaders) ∧
    (∀ (impl : OutOfBandAuthenticationImpl) (v : PinUserVerifier),
      (impl.pinUserVerifier v)._pinUserVerifier = some v ∧
      (impl.pinUserVerifier v).operationId = impl.operationId ∧
      (impl.pinUserVerifier v)._accountSelector = impl._accountSelector ∧
      (impl.pinUserVerifier v)._authenticatorSelector = impl._authenticatorSelector ∧
      (impl.pinUserVerifier v)._biometricUserVerifier = impl._biometricUserVerifier ∧
      (impl.pinUserVerifier v)._devicePasscodeUserVerifier =
        impl._devicePasscodeUserVerifier ∧
      (impl.pinUserVerifier v)._fingerprintUserVerifier = impl._fingerprintUserVerifier ∧
      (impl.pinUserVerifier v)._onSuccess = impl._onSuccess ∧
      (impl.pinUserVerifier v)._onError = impl._onError ∧
      (impl.pinUserVerifier v).httpRequestHeaders = impl.httpRequestHeaders) ∧
    (∀ (impl : OutOfBandAuthenticationImpl) (v : BiometricUserVerifier),
      (impl.biometricUserVerifier v)._biometricUserVerifier = some v ∧
      (impl.biometricUserVerifier v).operationId = impl.operationId ∧
      (impl.biometricUserVerifier v)._accountSelector = impl._accountSelector ∧
      (impl.biometricUserVerifier v)._authenticatorSelector = impl._authenticatorSelector ∧
      (impl.biometricUserVerifier v)._pinUserVerifier = impl._pinUserVerifier ∧
      (impl.biometricUserVerifier v)._devicePasscodeUserVerifier =
        impl._devicePasscodeUserVerifier ∧
      (impl.biometricUserVerifier v)._fingerprintUserVerifier =
        impl._fingerprintUserVerifier ∧
      (impl.biometricUserVerifier v)._onSuccess = impl._onSuccess ∧
      (impl.biometricUserVerifier v)._onError = impl._onError ∧
      (impl.biometricUserVerifier v).httpRequestHeaders = impl.httpRequestHeaders) ∧
    (∀ (impl : OutOfBandAuthenticationImpl) (v : DevicePasscodeUserVerifier),
      (impl.devicePasscodeUserVerifier v)._devicePasscodeUserVerifier = some v ∧
      (impl.devicePasscodeUserVerifier v).operationId = impl.operationId ∧
      (impl.devicePasscodeUserVerifier v)._accountSelector = impl._accountSelector ∧
      (impl.devicePasscodeUserVerifier v)._authenticatorSelector =
        impl._authenticatorSelector ∧
      (impl.devicePasscodeUserVerifier v)._pinUserVerifier = impl._pinUserVerifier ∧
      (impl.devicePasscodeUserVerifier v)._biometricUserVerifier =
        impl._biometricUserVerifier ∧
      (impl.devicePasscodeUserVerifier v)._fingerprintUserVerifier =
        impl._fingerprintUserVerifier ∧
      (impl.devicePasscodeUserVerifier v)._onSuccess = impl._onSuccess ∧
      (impl.devicePasscodeUserVerifier v)._onError = impl._onError ∧
      (impl.devicePasscodeUserVerifier v).httpRequestHeaders = impl.httpRequestHeaders) ∧
    (∀ (impl : OutOfBandAuthenticationImpl) (v : FingerprintUserVerifier),
      (impl.fingerprintUserVerifier v)._fingerprintUserVerifier = some v ∧
      (impl.fingerprintUserVerifier v).operationId = impl.operationId ∧
      (impl.fingerprintUserVerifier v)._accountSelector = impl._accountSelector ∧
      (impl.fingerprintUserVerifier v)._authenticatorSelector =
        impl._authenticatorSelector ∧
      (impl.fingerprintUserVerifier v)._pinUserVerifier = impl._pinUserVerifier ∧
      (impl.fingerprintUserVerifier v)._biometricUserVerifier =
        impl._biometricUserVerifier ∧
      (impl.fingerprintUserVerifier v)._devicePasscodeUserVerifier =
        impl._devicePasscodeUserVerifier ∧
      (impl.fingerprintUserVerifier v)._onSuccess = impl._onSuccess ∧
      (impl.fingerprintUserVerifier v)._onError = impl._onError ∧
      (impl.fingerprintUserVerifier v).httpRequestHeaders = impl.httpRequestHeaders) ∧
    (∀ (impl : OutOfBandAuthenticationImpl) (v : SuccessCallback),
      (impl.onSuccess v)._onSuccess = some v ∧
      (impl.onSuccess v).operationId = impl.operationId ∧
      (impl.onSuccess v)._accountSelector = impl._accountSelector ∧
      (impl.onSuccess v)._authenticatorSelector = impl._authenticatorSelector ∧
      (impl.onSuccess v)._pinUserVerifier = impl._pinUserVerifier ∧
      (impl.onSuccess v)._biometricUserVerifier = impl._biometricUserVerifier ∧
      (impl.onSuccess v)._devicePasscodeUserVerifier = impl._devicePasscodeUserVerifier ∧
      (impl.onSuccess v)._fingerprintUserVerifier = impl._fingerprintUserVerifier ∧
      (impl.onSuccess v)._onError = impl._onError ∧
      (impl.onSuccess v).httpRequestHeaders = impl.httpRequestHeaders) ∧
    (∀ (impl : OutOfBandAuthenticationImpl) (v : ErrorCallback),
      (impl.onError v)._onError = some v ∧
      (impl.onError v).operationId = impl.operationId ∧
      (impl.onError v)._accountSelector = impl._accountSelector ∧
      (impl.onError v)._authenticatorSelector = impl._authenticatorSelector ∧
      (impl.onError v)._pinUserVerifier = impl._pinUserVerifier ∧
      (impl.onError v)._biometricUserVerifier = impl._biometricUserVerifier ∧
      (impl.onError v)._devicePasscodeUserVerifier = impl._devicePasscodeUserVerifier ∧
      (impl.onError v)._fingerprintUserVerifier = impl._fingerprintUserVerifier ∧
      (impl.onError v)._onSuccess = impl._onSuccess ∧
      (impl.onError v).httpRequestHeaders = impl.httpRequestHeaders) := by
  refine ⟨?_, ?_, ?_, ?_, ?_, ?_, ?_, ?_⟩ <;>
    exact fun _ _ => ⟨rfl, rfl, rfl, rfl, rfl, rfl, rfl, rfl, rfl, rfl⟩

/-- C2: with both terminal callbacks configured, every run of `execute`
invokes exactly one terminal callback exactly once — `onSuccess` when the
native promise resolves, `onError` when it rejects — never both. -/
theorem c2_exactly_one_terminal_callback (impl : OutOfBandAuthenticationImpl)
    (outcome : NativeOutcome)
    (h1 : impl._onSuccess.isSome = true) (h2 : impl._onError.isSome = true) :
    List.countP isTerminalCallback (executeTrace impl outcome) = 1 ∧
    (outcome = NativeOutcome.success →
      List.countP (isInvokeSuccess impl.operationId) (executeTrace impl outcome) = 1 ∧
      List.countP (isInvokeError impl.operationId) (executeTrace impl outcome) = 0) ∧
    (outcome = NativeOutcome.failure →
      List.countP (isInvokeError impl.operationId) (executeTrace impl outcome) = 1 ∧
      List.countP (isInvokeSuccess impl.operationId) (executeTrace impl outcome) = 0) := by
  obtain ⟨sc, hsc⟩ := Option.isSome_iff_exists.mp h1
  obtain ⟨ec, hec⟩ := Option.isSome_iff_exists.mp h2
  cases outcome <;>
    simp [executeTrace, finishActions, hsc, hec, isTerminalCallback, isInvokeSuccess,
      isInvokeError, List.countP_cons]

/-- Witness for C2 at a concrete fully configured builder and a resolving
native promise. -/
theorem c2_exactly_one_terminal_callback_witness :
    (((OutOfBandAuthenticationImpl.new "op-1").onSuccess ⟨7⟩).onError
        ⟨8⟩)._onSuccess.isSome = true ∧
    (((OutOfBandAuthenticationImpl.new "op-1").onSuccess ⟨7⟩).onError
        ⟨8⟩)._onError.isSome = true ∧
    List.countP isTerminalCallback
      (executeTrace (((OutOfBandAuthenticationImpl.new "op-1").onSuccess ⟨7⟩).onError ⟨8⟩)
        NativeOutcome.success) = 1 :=
  ⟨rfl, rfl,
   (c2_exactly_one_terminal_callback
      (((OutOfBandAuthenticationImpl.new "op-1").onSuccess ⟨7⟩).onError ⟨8⟩)
      NativeOutcome.success rfl rfl).1⟩

/-- C8: the operation identifier established client-side is the correlation
key throughout `execute`: the encoded message and the cached operation both
carry `impl.operationId`, the cache insertion is the first observable step
and precedes the native call, and at the moment of the native call the cache
maps `impl.operationId` to the freshly built operation. -/
theorem c8_correlation_key (impl : OutOfBandAuthenticationImpl) (outcome : NativeOutcome)
    (s : BridgeState) :
    impl.message.operationId = impl.operationId ∧
    (UserInteractionPlatformOperationImpl.ofAuth impl).operationId = impl.operationId ∧
    firstIdxAux (isPutFor impl.operationId) (executeTrace impl outcome) = some 0 ∧
    firstIdxAux isNativeCall (executeTrace impl outcome) = some 1 ∧
    PlatformOperationCache.get
        (runTrace s ((executeTrace impl outcome).take 1)).cache impl.operationId =
      some (UserInteractionPlatformOperationImpl.ofAuth impl) := by
  refine ⟨rfl, rfl, ?_, ?_, ?_⟩
  · simp [executeTrace, firstIdxAux, isPutFor, UserInteractionPlatformOperationImpl.ofAuth]
  · simp [executeTrace, firstIdxAux, isNativeCall, isPutFor,
      UserInteractionPlatformOperationImpl.ofAuth]
  · simp only [executeTrace, List.cons_append, List.take_succ_cons, List.take_zero,
      runTrace, List.foldl, applyAction]
    exact PlatformOperationCache.get_put_self s.cache
       (UserInteractionPlatformOperationImpl.ofAuth impl)

/-- A concrete fully configured builder keyed `"op-42"`. -/
def implOp42 : OutOfBandAuthenticationImpl :=
  ((((((((OutOfBandAuthenticationImpl.new "op-42").accountSelector
      ⟨1⟩).authenticatorSelector ⟨2⟩).pinUserVerifier ⟨3⟩).biometricUserVerifier
      ⟨4⟩).devicePasscodeUserVerifier ⟨5⟩).fingerprintUserVerifier ⟨6⟩).onSuccess
      ⟨7⟩).onError ⟨8⟩

/-- A second cached operation keyed `"op-7"`, concurrent with `"op-42"`. -/
def opSeven : UserInteractionPlatformOperationImpl :=
  { operationId := "op-7"
    authenticatorSelector := none
    accountSelector := none
    biometricUserVerifier := none
    devicePasscodeUserVerifier := none
    fingerprintUserVerifier := none
    pinUserVerifier := none }

/-- A bridge state with the listener active and `"op-7"` already cached. -/
def stateTwoOps : BridgeState :=
  { cache := [("op-7", opSeven)], listenerActive := true }

/-- C1, counterexample: on the success path of `execute` the success callback
is NOT invoked before the cache entry is removed (the `finish` closure runs
first), and the listener is stopped even though another operation
(`"op-7"`) is still cached — so the stop is not conditioned on the cache
being empty. -/
theorem c1_counterexample :
    beforeB (executeTrace implOp42 NativeOutcome.success)
      (isInvokeSuccess "op-42") (isDelete "op-42") = false ∧
    (runTrace stateTwoOps (executeTrace implOp42 NativeOutcome.success)).listenerActive
      = false ∧
    PlatformOperationCache.get
        (runTrace stateTwoOps (executeTrace implOp42 NativeOutcome.success)).cache "op-7" =
      some opSeven := by
  refine ⟨by decide, by decide, by decide⟩

/-- C1, amended: when `execute` reaches either terminal outcome (success or
error, with the corresponding callbacks configured), the listener is stopped
unconditionally, then the operation's cache entry is deleted, and only after
both does the corresponding top-level callback fire — `onSuccess` on the
success path, `onError` on the error path; afterwards the cache no longer
contains the identifier and the listener is stopped. -/
theorem c1_amended_removal_before_callback (impl : OutOfBandAuthenticationImpl)
    (outcome : NativeOutcome) (sc : SuccessCallback) (ec : ErrorCallback)
    (h1 : impl._onSuccess = some sc) (h2 : impl._onError = some ec) (s : BridgeState) :
    beforeB (executeTrace impl outcome)
      isStopListener (isDelete impl.operationId) = true ∧
    beforeB (executeTrace impl outcome)
      (isDelete impl.operationId) isTerminalCallback = true ∧
    (outcome = NativeOutcome.success →
      beforeB (executeTrace impl outcome)
        (isDelete impl.operationId) (isInvokeSuccess impl.operationId) = true) ∧
    (outcome = NativeOutcome.failure →
      beforeB (executeTrace impl outcome)
        (isDelete impl.operationId) (isInvokeError impl.operationId) = true) ∧
    (runTrace s (executeTrace impl outcome)).listenerActive = false ∧
    PlatformOperationCache.get
        (runTrace s (executeTrace impl outcome)).cache impl.operationId =
      none := by
  cases outcome with
  | success =>
    refine ⟨?_, ?_, fun _ => ?_, by simp, ?_, ?_⟩
    · simp [executeTrace, finishActions, h1, beforeB, firstIdxAux, isStopListener, isDelete,
        isInvokeSuccess, isTerminalCallback, isPutFor, isNativeCall]
    · simp [executeTrace, finishActions, h1, beforeB, firstIdxAux, isStopListener, isDelete,
        isInvokeSuccess, isTerminalCallback, isPutFor, isNativeCall]
    · simp [executeTrace, finishActions, h1, beforeB, firstIdxAux, isStopListener, isDelete,
        isInvokeSuccess, isTerminalCallback, isPutFor, isNativeCall]
    · simp [executeTrace, finishActions, h1, runTrace, List.foldl, applyAction,
        NativeEventListener.stop]
    · simp only [executeTrace, finishActions, h1, List.cons_append, List.nil_append,
        runTrace, List.foldl, applyAction]
      exact PlatformOperationCache.get_delete_self _ impl.operationId
  | failure =>
    refine ⟨?_, ?_, by simp, fun _ => ?_, ?_, ?_⟩
    · simp [executeTrace, finishActions, h2, beforeB, firstIdxAux, isStopListener, isDelete,
        isInvokeError, isTerminalCallback, isPutFor, isNativeCall]
    · simp [executeTrace, finishActions, h2, beforeB, firstIdxAux, isStopListener, isDelete,
        isInvokeError, isTerminalCallback, isPutFor, isNativeCall]
    · simp [executeTrace, finishActions, h2, beforeB, firstIdxAux, isStopListener, isDelete,
        isInvokeError, isTerminalCallback, isPutFor, isNativeCall]
    · simp [executeTrace, finishActions, h2, runTrace, List.foldl, applyAction,
        NativeEventListener.stop]
    · simp only [executeTrace, finishActions, h2, List.cons_append, List.nil_append,
        runTrace, List.foldl, applyAction]
      exact PlatformOperationCache.get_delete_self _ impl.operationId

/-- Witness for the amended C1 at the concrete builder `implOp42` and the
two-operation bridge state, on both the success and the error path. -/
theorem c1_amended_removal_before_callback_witness :
    implOp42._onSuccess = some ⟨7⟩ ∧
    implOp42._onError = some ⟨8⟩ ∧
    (beforeB (executeTrace implOp42 NativeOutcome.success)
        isStopListener (isDelete implOp42.operationId) = true ∧
      beforeB (executeTrace implOp42 NativeOutcome.success)
        (isDelete implOp42.operationId) isTerminalCallback = true ∧
      (NativeOutcome.success = NativeOutcome.success →
        beforeB (executeTrace implOp42 NativeOutcome.success)
          (isDelete implOp42.operationId) (isInvokeSuccess implOp42.operationId) = true) ∧
      (NativeOutcome.success = NativeOutcome.failure →
        beforeB (executeTrace implOp42 NativeOutcome.success)
          (isDelete implOp42.operationId) (isInvokeError implOp42.operationId) = true) ∧
      (runTrace stateTwoOps
          (executeTrace implOp42 NativeOutcome.success)).listenerActive = false ∧
      PlatformOperationCache.get
          (runTrace stateTwoOps
            (executeTrace implOp42 NativeOutcome.success)).cache implOp42.operationId =
        none) ∧
    (beforeB (executeTrace implOp42 NativeOutcome.failure)
        isStopListener (isDelete implOp42.operationId) = true ∧
      beforeB (executeTrace implOp42 NativeOutcome.failure)
        (isDelete implOp42.operationId) isTerminalCallback = true ∧
      (NativeOutcome.failure = NativeOutcome.success →
        beforeB (executeTrace implOp42 NativeOutcome.failure)
          (isDelete implOp42.operationId) (isInvokeSuccess implOp42.operationId) = true) ∧
      (NativeOutcome.failure = NativeOutcome.failure →
        beforeB (executeTrace implOp42 NativeOutcome.failure)
          (isDelete implOp42.operationId) (isInvokeError implOp42.operationId) = true) ∧
      (runTrace stateTwoOps
          (executeTrace implOp42 NativeOutcome.failure)).listenerActive = false ∧
      PlatformOperationCache.get
          (runTrace stateTwoOps
            (executeTrace implOp42 NativeOutcome.failure)).cache implOp42.operationId =
        none) :=
  ⟨rfl, rfl,
   c1_amended_removal_before_callback implOp42 NativeOutcome.success ⟨7⟩ ⟨8⟩ rfl rfl
     stateTwoOps,
   c1_amended_removal_before_callback implOp42 NativeOutcome.failure ⟨7⟩ ⟨8⟩ rfl rfl
     stateTwoOps⟩
